import Mathlib

/-!
Shallow embedding of the message-gating core of the `tg-wife-ai` repository
(files `app/settings_manager.py`, `app/rate_limit.py`, `app/main.py`,
`app/telethon_manager.py`, `app/user_data.py`, `app/db.py`, `app/prompt.py`).

Times are modelled as rationals (Python floats carry epoch seconds); machine
dictionaries are association lists read through `List.lookup`; fallible
operations return `Option`.
-/

namespace WifeSim

/-! ### Python primitives -/

/-- The default whitespace set of Python `str.strip()` (ASCII part). -/
def isPyWhitespace (c : Char) : Bool :=
  c = ' ' || c = '\t' || c = '\n' || c = '\r' || c = Char.ofNat 11 || c = Char.ofNat 12

/-- Models Python `str.strip()`: drop whitespace from both ends. -/
def pyStrip (s : String) : String :=
  ⟨((s.data.dropWhile isPyWhitespace).reverse.dropWhile isPyWhitespace).reverse⟩

/-- Digit run to a natural number. -/
def digitsToNat (cs : List Char) : Nat :=
  cs.foldl (fun acc c => acc * 10 + (c.toNat - 48)) 0

/-- Models CPython `int(s)` on decimal string literals: surrounding
whitespace, an optional sign, then a nonempty digit run; anything else
raises `ValueError`, modelled as `none`. -/
def pyInt? (s : String) : Option Int :=
  match (pyStrip s).data with
  | [] => none
  | c :: rest =>
    if c = '-' then
      if !rest.isEmpty && rest.all Char.isDigit then some (-(digitsToNat rest : Int)) else none
    else if c = '+' then
      if !rest.isEmpty && rest.all Char.isDigit then some (digitsToNat rest : Int) else none
    else if (c :: rest).all Char.isDigit then some (digitsToNat (c :: rest) : Int) else none

/-- Models Python `int(x)` on a float: truncation toward zero. -/
def pyTrunc (q : ℚ) : Int := if q < 0 then Int.ceil q else Int.floor q

/-- Models Python `str.lower()` (ASCII case fold, all the source compares
against are ASCII constants). -/
def pyLower (s : String) : String := ⟨s.data.map Char.toLower⟩

/-- Models Python `s.split(sep)` for a one-character separator. -/
def pySplitOnChar (sep : Char) (s : String) : List String :=
  (s.data.foldr
    (fun c acc =>
      match acc with
      | [] => [[c]]
      | g :: gs => if c = sep then [] :: g :: gs else (c :: g) :: gs)
    [[]]).map (fun l => ⟨l⟩)

/-- Models Python `value.lower() in ("true", "1", "yes", "on")`. -/
def pyTruthy (v : String) : Bool :=
  ["true", "1", "yes", "on"].contains (pyLower v)

/-! ### Dictionaries as association lists

A Python `dict` is modelled as a `List (String × String)` read through
`List.lookup`; assignment prepends (so the latest binding shadows), deletion
filters the key out. -/

/-- Dictionary read: `d.get(k)`. -/
def dget (d : List (String × String)) (k : String) : Option String :=
  List.lookup k d

/-- Dictionary assignment: `d[k] = v`. -/
def dset (d : List (String × String)) (k v : String) : List (String × String) :=
  (k, v) :: d

/-- Dictionary deletion: `del d[k]` (no-op when absent, as used by the source
only under an `in` guard). -/
def ddel (d : List (String × String)) (k : String) : List (String × String) :=
  d.filter (fun p => p.1 != k)

/-! ### SettingsManager (`app/settings_manager.py`) -/

namespace SettingsManager

/-- The hard-coded fallbacks, `SettingsManager.DEFAULTS`. -/
def DEFAULTS : List (String × String) :=
  [("ai_enabled", "false"),
   ("pause_until_ts", "0"),
   ("target_user_id", ""),
   ("target_username", ""),
   ("quiet_hours_start", ""),
   ("quiet_hours_end", ""),
   ("timezone", "Europe/Moscow"),
   ("quiet_mode", "queue"),
   ("context_turns", "40"),
   ("rate_limit_count", "4"),
   ("rate_limit_window", "30"),
   ("model_name", "gemini-2.5-flash"),
   ("style_profile", ""),
   ("manual_override_pause_minutes", "15")]

end SettingsManager

/-- The state of a `SettingsManager` together with the settings table of its
durable store (`Database.set_setting` / `get_all_settings` key-value rows). -/
structure SettingsState where
  cache : List (String × String)
  store : List (String × String)
  deriving Repr, DecidableEq

namespace SettingsManager

/-- `SettingsManager.__init__`: cache starts from `DEFAULTS`, ENV entries
overlay it when their value is neither `None` nor empty, then every DB row
overlays that (highest priority). -/
def build (env : List (String × String)) (store : List (String × String)) : SettingsState :=
  let cache0 := DEFAULTS
  let cache1 := env.foldl (fun c kv => if kv.2 ≠ "" then dset c kv.1 kv.2 else c) cache0
  let cache2 := store.foldl (fun c kv => dset c kv.1 kv.2) cache1
  ⟨cache2, store⟩

/-- `get_str`: missing or empty cache value falls back to the caller default. -/
def getStr (st : SettingsState) (key : String) (default : Option String) : Option String :=
  match dget st.cache key with
  | none => default
  | some v => if v = "" then default else some v

/-- `get_int`: missing, empty or unparsable cache value falls back to the
caller default (the `ValueError` branch logs and returns `default`). -/
def getInt (st : SettingsState) (key : String) (default : Int) : Int :=
  match dget st.cache key with
  | none => default
  | some v =>
    if v = "" then default
    else match pyInt? v with
      | some n => n
      | none => default

/-- `get_bool`: missing or empty cache value falls back to the caller
default; otherwise the truthiness test `value.lower() in (...)` decides. -/
def getBool (st : SettingsState) (key : String) (default : Bool) : Bool :=
  match dget st.cache key with
  | none => default
  | some v => if v = "" then default else pyTruthy v

/-- `get_timezone`: resolves the `timezone` setting; an invalid zone name
falls back to the hard-coded `Europe/Moscow` (exception swallowed).
`validZone` stands for the host tz database membership test. -/
def getTimezone (validZone : String → Bool) (st : SettingsState) : String :=
  let tz := (getStr st "timezone" (some "Europe/Moscow")).getD "Europe/Moscow"
  if validZone tz then tz else "Europe/Moscow"

/-- First statement of `set`: `self._cache[key] = str_value`. -/
def setCachePhase (st : SettingsState) (k v : String) : SettingsState :=
  { st with cache := dset st.cache k v }

/-- Second statement of `set`: `self.db.set_setting(key, str_value)`. -/
def setStorePhase (st : SettingsState) (k v : String) : SettingsState :=
  { st with store := dset st.store k v }

/-- `set(key, value)` as written in the source: the cache assignment runs
first, the durable write second. -/
def set (st : SettingsState) (k v : String) : SettingsState :=
  setStorePhase (setCachePhase st k v) k v

/-- `delete(key)`: remove the DB row; then the cache entry reverts to the
hard-coded default when the key has one, else it is dropped. -/
def delete (st : SettingsState) (k : String) : SettingsState :=
  let st1 := { st with store := ddel st.store k }
  match dget DEFAULTS k with
  | some d => { st1 with cache := dset st1.cache k d }
  | none => { st1 with cache := ddel st1.cache k }

/-- `is_ai_enabled`. -/
def isAiEnabled (st : SettingsState) : Bool :=
  getBool st "ai_enabled" true

/-- `is_paused` at epoch time `now`. -/
def isPaused (st : SettingsState) (now : ℚ) : Bool :=
  let p := getInt st "pause_until_ts" 0
  if p ≤ 0 then false else decide (now < (p : ℚ))

/-- `get_pause_remaining_seconds` at epoch time `now`. -/
def pauseRemainingSeconds (st : SettingsState) (now : ℚ) : Int :=
  let p := getInt st "pause_until_ts" 0
  if p ≤ 0 then 0 else max 0 (pyTrunc ((p : ℚ) - now))

/-- The pause reason string produced by `should_respond`. -/
def pauseReason (st : SettingsState) (now : ℚ) : String :=
  "Пауза (" ++ toString (pauseRemainingSeconds st now / 60) ++ " мин. осталось)"

/-- `should_respond`: disabled beats paused beats allowed. -/
def shouldRespond (st : SettingsState) (now : ℚ) : Bool × String :=
  if !isAiEnabled st then (false, "AI отключен")
  else if isPaused st now then (false, pauseReason st now)
  else (true, "OK")

/-- `set_pause(duration_seconds)`. -/
def setPause (st : SettingsState) (now : ℚ) (durationSeconds : Int) : SettingsState :=
  set st "pause_until_ts" (toString (pyTrunc now + durationSeconds))

/-- `set_manual_override_pause`: reads the configured minutes (fallback 15)
and sets the pause only when that value is positive. -/
def setManualOverridePause (st : SettingsState) (now : ℚ) : SettingsState :=
  let minutes := getInt st "manual_override_pause_minutes" 15
  if 0 < minutes then set st "pause_until_ts" (toString (pyTrunc now + minutes * 60))
  else st

end SettingsManager

/-! ### RateLimiter (`app/rate_limit.py`)

The deque of float admission timestamps becomes a `List ℚ`; `popleft` while
the front is expired is `List.dropWhile`. -/

structure RateLimiter where
  max_count : Nat
  window_seconds : ℚ
  timestamps : List ℚ
  deriving Repr, DecidableEq

namespace RateLimiter

/-- The pruning loop shared by `acquire` and `wait_and_acquire`: pop from the
front while the front timestamp is older than `now - window_seconds`. -/
def pruned (rl : RateLimiter) (now : ℚ) : List ℚ :=
  rl.timestamps.dropWhile (fun t => decide (t < now - rl.window_seconds))

/-- `acquire()` at `time.time() = now`: prune, then admit (recording `now`)
iff fewer than `max_count` timestamps remain. -/
def acquire (rl : RateLimiter) (now : ℚ) : Bool × RateLimiter :=
  let ts := rl.pruned now
  if rl.max_count ≤ ts.length then (false, { rl with timestamps := ts })
  else (true, { rl with timestamps := ts ++ [now] })

/-- Models the moment `wait_and_acquire` returns: its loop re-checks until a
re-check at some time `t` finds room, at which point it prunes and records
`t`.  Faithful for any `t` at which the pruned window has room. -/
def waitAcquireAt (rl : RateLimiter) (t : ℚ) : RateLimiter :=
  { rl with timestamps := rl.pruned t ++ [t] }

/-- `time_until_available()` at `now`.  The source indexes
`valid_timestamps[0]` after checking `len(valid) >= max_count`; with
`max_count = 0` and a fully expired nonempty deque that index raises, which
is modelled by `none`. -/
def timeUntilAvailable (rl : RateLimiter) (now : ℚ) : Option ℚ :=
  if rl.timestamps.isEmpty then some 0
  else
    let valid := rl.timestamps.filter (fun t => decide (now - rl.window_seconds ≤ t))
    if valid.length < rl.max_count then some 0
    else valid.head?.map (fun h => max 0 (h + rl.window_seconds - now))

end RateLimiter

/-! ### Quiet-hours evaluator (`WifeBot.is_quiet_hours`,
`TelethonManager._is_quiet_hours`)

Wall-clock times of day are modelled in whole minutes (0 … 1439).  The
source compares `datetime.time` values whose boundaries carry zero seconds,
so classification only depends on the current whole minute. -/

/-- Models `dt_time(int(parts[0]), int(parts[1]))` on `s.split(":")`: needs
at least two fields, Python-`int`-parsable, with `0 ≤ h < 24` and
`0 ≤ m < 60` (`datetime.time` validates); result in minutes of day.  Any
failure raises in the source and is caught by the enclosing handler. -/
def parseTimeHM (s : String) : Option Nat :=
  match pySplitOnChar ':' s with
  | p0 :: p1 :: _ =>
    match pyInt? p0, pyInt? p1 with
    | some h, some m =>
      if 0 ≤ h ∧ h < 24 ∧ 0 ≤ m ∧ m < 60 then some (h.toNat * 60 + m.toNat) else none
    | _, _ => none
  | _ => none

/-- The shared quiet-hours classification: falsy start or end disables,
a timezone resolution error or parse error fails open to `false`, an
overnight window (`start > end`) is `[start, 24:00) ∪ [00:00, end)`, a
same-day window is `[start, end)`. -/
def isQuietHoursCore (qstart qend : String) (tzOk : Bool) (cur : Nat) : Bool :=
  if qstart = "" ∨ qend = "" then false
  else if !tzOk then false
  else
    match parseTimeHM qstart, parseTimeHM qend with
    | some s, some e =>
      if e < s then decide (s ≤ cur ∨ cur < e)
      else decide (s ≤ cur ∧ cur < e)
    | _, _ => false

/-! ### UserData (`app/user_data.py`) -/

/-- `UserState` enumeration. -/
inductive UserState where
  | new
  | awaiting_api_id
  | awaiting_api_hash
  | awaiting_phone
  | awaiting_code
  | awaiting_2fa
  | awaiting_target
  | ready
  | awaiting_setting
  deriving Repr, DecidableEq

namespace UserState

/-- The `.value` string of each enum member. -/
def value : UserState → String
  | new => "new"
  | awaiting_api_id => "awaiting_api_id"
  | awaiting_api_hash => "awaiting_api_hash"
  | awaiting_phone => "awaiting_phone"
  | awaiting_code => "awaiting_code"
  | awaiting_2fa => "awaiting_2fa"
  | awaiting_target => "awaiting_target"
  | ready => "ready"
  | awaiting_setting => "awaiting_setting"

/-- Models the `UserState(s)` enum constructor: `none` is the `ValueError`
raised on an unknown value string. -/
def ofValue? (s : String) : Option UserState :=
  if s = "new" then some new
  else if s = "awaiting_api_id" then some awaiting_api_id
  else if s = "awaiting_api_hash" then some awaiting_api_hash
  else if s = "awaiting_phone" then some awaiting_phone
  else if s = "awaiting_code" then some awaiting_code
  else if s = "awaiting_2fa" then some awaiting_2fa
  else if s = "awaiting_target" then some awaiting_target
  else if s = "ready" then some ready
  else if s = "awaiting_setting" then some awaiting_setting
  else none

end UserState

/-- The `UserData` dataclass.  `phone_code_hash` is the transient auth handle
kept only in memory. -/
structure UserData where
  user_id : Int
  api_id : Option Int := none
  api_hash : Option String := none
  phone : Option String := none
  session_string : Option String := none
  target_user_id : Option Int := none
  target_username : Option String := none
  target_name : Option String := none
  state : UserState := UserState.new
  pending_setting : Option String := none
  ai_enabled : Bool := false
  pause_until_ts : Int := 0
  quiet_hours_start : Option String := none
  quiet_hours_end : Option String := none
  quiet_mode : String := "queue"
  timezone : String := "Europe/Moscow"
  context_turns : Int := 40
  style_profile : String := ""
  created_at : Int := 0
  last_activity_ts : Int := 0
  phone_code_hash : Option String := none
  deriving Repr, DecidableEq

/-- The storage row produced by `UserData.to_dict` and consumed by
`UserData.from_dict`: the enum is a string, the boolean an integer. -/
structure UserRow where
  user_id : Int
  api_id : Option Int
  api_hash : Option String
  phone : Option String
  session_string : Option String
  target_user_id : Option Int
  target_username : Option String
  target_name : Option String
  state : String
  pending_setting : Option String
  ai_enabled : Int
  pause_until_ts : Int
  quiet_hours_start : Option String
  quiet_hours_end : Option String
  quiet_mode : String
  timezone : String
  context_turns : Int
  style_profile : String
  created_at : Int
  last_activity_ts : Int
  deriving Repr, DecidableEq

namespace UserData

/-- `to_dict`: `state` becomes its `.value`, `ai_enabled` becomes `1`/`0`. -/
def toDict (u : UserData) : UserRow :=
  { user_id := u.user_id
    api_id := u.api_id
    api_hash := u.api_hash
    phone := u.phone
    session_string := u.session_string
    target_user_id := u.target_user_id
    target_username := u.target_username
    target_name := u.target_name
    state := u.state.value
    pending_setting := u.pending_setting
    ai_enabled := if u.ai_enabled then 1 else 0
    pause_until_ts := u.pause_until_ts
    quiet_hours_start := u.quiet_hours_start
    quiet_hours_end := u.quiet_hours_end
    quiet_mode := u.quiet_mode
    timezone := u.timezone
    context_turns := u.context_turns
    style_profile := u.style_profile
    created_at := u.created_at
    last_activity_ts := u.last_activity_ts }

/-- `from_dict`: `UserState(...)` may raise on an unknown state string
(modelled by `none`); `bool(...)` on the stored integer is `≠ 0`;
`phone_code_hash` is not restored. -/
def fromDict (row : UserRow) : Option UserData :=
  match UserState.ofValue? row.state with
  | none => none
  | some st =>
    some
      { user_id := row.user_id
        api_id := row.api_id
        api_hash := row.api_hash
        phone := row.phone
        session_string := row.session_string
        target_user_id := row.target_user_id
        target_username := row.target_username
        target_name := row.target_name
        state := st
        pending_setting := row.pending_setting
        ai_enabled := row.ai_enabled != 0
        pause_until_ts := row.pause_until_ts
        quiet_hours_start := row.quiet_hours_start
        quiet_hours_end := row.quiet_hours_end
        quiet_mode := row.quiet_mode
        timezone := row.timezone
        context_turns := row.context_turns
        style_profile := row.style_profile
        created_at := row.created_at
        last_activity_ts := row.last_activity_ts
        phone_code_hash := none }

/-- `UserData.is_paused` at epoch time `now`. -/
def isPaused (u : UserData) (now : ℚ) : Bool :=
  if u.pause_until_ts ≤ 0 then false else decide (now < (u.pause_until_ts : ℚ))

/-- The pause reason string produced by `UserData.should_respond`. -/
def pauseReason (u : UserData) (now : ℚ) : String :=
  "Пауза (" ++ toString (pyTrunc (((u.pause_until_ts : ℚ) - now) / 60)) ++ " мин.)"

/-- `UserData.should_respond`: disabled beats paused beats allowed. -/
def shouldRespond (u : UserData) (now : ℚ) : Bool × String :=
  if !u.ai_enabled then (false, "AI выключен")
  else if u.isPaused now then (false, u.pauseReason now)
  else (true, "OK")

end UserData

/-! ### Database rows for one owner (`app/db.py`)

`messages` is the append-only turn history of a single owner in `id` order
(`AUTOINCREMENT`); `pending` is the `pending_incoming` table of that owner in
`id` order.  The multi-owner tables are these, fibred over the owner id; the
single-user orchestrator of `app/main.py` works over exactly one owner. -/

/-- One `messages` row (owner implicit). -/
structure Turn where
  role : String
  text : String
  chat_id : Option Int
  message_id : Option Int
  deriving Repr, DecidableEq

/-- One `pending_incoming` row (owner implicit). -/
structure PendingItem where
  chat_id : Int
  message_id : Int
  text : String
  deriving Repr, DecidableEq

/-- `Database.is_message_processed`: does a stored user-role turn carry this
(chat_id, message_id) pair. -/
def dbIsMessageProcessed (msgs : List Turn) (chat msg : Int) : Bool :=
  msgs.any (fun t => t.role == "user" && t.chat_id == some chat && t.message_id == some msg)

/-- `Database.add_message`: append one turn. -/
def dbAddMessage (msgs : List Turn) (role text : String)
    (chat : Option Int) (msg : Option Int) : List Turn :=
  msgs ++ [⟨role, text, chat, msg⟩]

/-- `Database.add_pending_message`: `INSERT` guarded by the
`UNIQUE(owner, chat_id, message_id)` constraint — a duplicate pair is a
silent no-op. -/
def dbAddPending (pending : List PendingItem) (chat msg : Int) (text : String) :
    List PendingItem :=
  if pending.any (fun p => p.chat_id == chat && p.message_id == msg) then pending
  else pending ++ [⟨chat, msg, text⟩]

/-- `Database.get_context`: the most recent `limit` turns, oldest first
(`ORDER BY id DESC LIMIT ?`, then reversed). -/
def dbGetContext (msgs : List Turn) (limit : Nat) : List Turn :=
  (msgs.reverse.take limit).reverse

/-- `prompt.format_pending_messages`: a single queued item passes verbatim;
several are numbered from 1 and wrapped with the batch preamble. -/
def formatPendingMessages (msgs : List PendingItem) : String :=
  match msgs with
  | [] => ""
  | [m] => m.text
  | _ =>
    let parts := msgs.enum.map (fun im => "[Сообщение " ++ toString (im.1 + 1) ++ "]: " ++ im.2.text)
    "(Муж отправил несколько сообщений, пока ты спала)\n\n" ++
      String.intercalate "\n" parts ++
      "\n\n(Ответь на всё это одним сообщением, учитывая контекст всех сообщений)"

/-! ### Single-user orchestrator (`WifeBot` in `app/main.py`) -/

/-- The mutable state a `WifeBot` decision cycle touches: its
`SettingsManager`, the owner's turn history and pending queue, the in-memory
rate limiter, and the status-only `last_sender` / `last_activity` cells. -/
structure BotState where
  settings : SettingsState
  messages : List Turn
  pending : List PendingItem
  limiter : RateLimiter
  lastSenderId : Option Int
  lastActivityTs : Option ℚ
  deriving Repr, DecidableEq

/-- One incoming transport event (`events.NewMessage.Event`).
`sender_is_user` is the `isinstance(sender, User)` test; `raw_text` is
`None` for service payloads. -/
structure Event where
  is_private : Bool
  sender_is_user : Bool
  sender_id : Int
  chat_id : Int
  id : Int
  out : Bool
  raw_text : Option String
  deriving Repr, DecidableEq

/-- The ambient inputs of one decision cycle: the epoch clock, the owner's
local wall-clock minute (for quiet hours), the time at which a blocking
`wait_and_acquire` would return, and the external generation + send step as
an oracle from the prompt to `some reply` (generated and sent) or `none`
(the generation or send step raised). -/
structure Env where
  now : ℚ
  curMinutes : Nat
  retryAdmitTime : ℚ
  gen : String → Option String

/-- `WifeBot._get_target_user_id`: the persisted setting wins when positive,
else the static config value. -/
def getTargetUserId (st : SettingsState) (cfgTarget : Option Int) : Option Int :=
  let sid := SettingsManager.getInt st "target_user_id" 0
  if 0 < sid then some sid else cfgTarget

/-- `WifeBot.is_quiet_hours`: reads the window from settings; the timezone
resolves through `get_timezone`, which never raises (it falls back to
Moscow), so the tz flag is `true` here. -/
def wifeBotIsQuietHours (st : SettingsState) (cur : Nat) : Bool :=
  isQuietHoursCore ((SettingsManager.getStr st "quiet_hours_start" (some "")).getD "")
    ((SettingsManager.getStr st "quiet_hours_end" (some "")).getD "") true cur

/-- `WifeBot.handle_message`: the full per-event gate pipeline, returning the
new state and the list of `(chat_id, text)` sends it dispatched. -/
def handleMessage (cfgTarget : Option Int) (st : BotState) (ev : Event) (env : Env) :
    BotState × List (Int × String) :=
  if !ev.is_private then (st, [])
  else if !ev.sender_is_user then (st, [])
  else
    let st1 := { st with lastSenderId := some ev.sender_id }
    if ev.out then
      let target := getTargetUserId st1.settings cfgTarget
      if some ev.sender_id == target || some ev.chat_id == target then
        ({ st1 with settings := SettingsManager.setManualOverridePause st1.settings env.now }, [])
      else (st1, [])
    else
      let target := getTargetUserId st1.settings cfgTarget
      if some ev.sender_id != target then (st1, [])
      else
        let text := pyStrip (ev.raw_text.getD "")
        if text = "" then (st1, [])
        else if dbIsMessageProcessed st1.messages ev.chat_id ev.id then (st1, [])
        else
          let st2 := { st1 with lastActivityTs := some env.now }
          if !(SettingsManager.shouldRespond st2.settings env.now).1 then (st2, [])
          else if wifeBotIsQuietHours st2.settings env.curMinutes then
            if (SettingsManager.getStr st2.settings "quiet_mode" (some "queue")).getD "queue" == "ignore" then
              (st2, [])
            else
              ({ st2 with pending := dbAddPending st2.pending ev.chat_id ev.id text }, [])
          else
            let acq := st2.limiter.acquire env.now
            let rl := if acq.1 then acq.2 else acq.2.waitAcquireAt env.retryAdmitTime
            let st3 := { st2 with
              limiter := rl
              messages := dbAddMessage st2.messages "user" text (some ev.chat_id) (some ev.id) }
            match env.gen text with
            | none => (st3, [])
            | some reply =>
              ({ st3 with
                  messages := dbAddMessage st3.messages "assistant" reply (some ev.chat_id) none },
                [(ev.chat_id, reply)])

/-- `WifeBot.process_pending_queue`: the quiet-hours batch flush, returning
the new state and the sends it dispatched. -/
def processPendingQueue (st : BotState) (env : Env) : BotState × List (Int × String) :=
  match st.pending with
  | [] => (st, [])
  | p0 :: _ =>
    if !(SettingsManager.shouldRespond st.settings env.now).1 then (st, [])
    else
      let pending := st.pending
      let acq := st.limiter.acquire env.now
      let rl := if acq.1 then acq.2 else acq.2.waitAcquireAt env.retryAdmitTime
      let chatId := p0.chat_id
      let st1 := { st with
        limiter := rl
        messages := st.messages ++
          pending.map (fun m => ⟨"user", m.text, some m.chat_id, some m.message_id⟩) }
      match env.gen (formatPendingMessages pending) with
      | none => (st1, [])
      | some reply =>
        ({ st1 with
            messages := dbAddMessage st1.messages "assistant" reply (some chatId) none
            pending := [] },
          [(chatId, reply)])

/-! ### Multi-owner variant (`TelethonManager` in `app/telethon_manager.py`) -/

/-- The multi-owner manual-override branch of `_handle_message`: it
hard-codes 15 minutes and stamps the event-loop clock, ignoring any
configured override setting. -/
def telethonManualOverridePause (u : UserData) (loopNow : ℚ) : UserData :=
  { u with pause_until_ts := pyTrunc loopNow + 15 * 60 }

/-- `TelethonManager._is_quiet_hours` for one owner: here an invalid
timezone name raises inside the guarded block and fails open to `false`. -/
def telethonIsQuietHours (validZone : String → Bool) (u : UserData) (cur : Nat) : Bool :=
  isQuietHoursCore (u.quiet_hours_start.getD "") (u.quiet_hours_end.getD "")
    (validZone u.timezone) cur

/-- The combined prompt built inline by `TelethonManager._process_queue`. -/
def telethonCombine (pending : List PendingItem) : String :=
  match pending with
  | [] => ""
  | [m] => m.text
  | _ =>
    "(Несколько сообщений)\n" ++
      String.intercalate "\n"
        (pending.enum.map (fun im => "[" ++ toString (im.1 + 1) ++ "]: " ++ im.2.text))

/-- `TelethonManager._process_queue` for one owner: returns the new turn
history, the new pending queue, and the sends dispatched.  `clientPresent`
is the `self._clients.get(user_id)` lookup; note that on generation success
the queue is cleared even when the client is absent (the clear sits outside
the `if client:` guard), while a raising generation leaves everything as
it was. -/
def telethonProcessQueue (u : UserData) (msgs : List Turn) (pending : List PendingItem)
    (clientPresent : Bool) (now : ℚ) (gen : String → Option String) :
    List Turn × List PendingItem × List (Int × String) :=
  match pending with
  | [] => (msgs, pending, [])
  | p0 :: _ =>
    if !(u.shouldRespond now).1 then (msgs, pending, [])
    else
      let chatId := p0.chat_id
      let msgs1 := msgs ++
        pending.map (fun m => ⟨"user", m.text, some m.chat_id, some m.message_id⟩)
      match gen (telethonCombine pending) with
      | none => (msgs1, pending, [])
      | some reply =>
        if clientPresent then
          (dbAddMessage msgs1 "assistant" reply (some chatId) none, [], [(chatId, reply)])
        else
          (msgs1, [], [])

/-- The stored user-role turns carrying a given (chat_id, message_id) pair:
the rows `is_message_processed` tests for. -/
def userPairTurns (msgs : List Turn) (chat msg : Int) : List Turn :=
  msgs.filter (fun t => t.role == "user" && t.chat_id == some chat && t.message_id == some msg)

/-! ### Helper lemmas -/

/-- Assigning a key makes it the value `lookup` finds. -/
theorem dget_dset_self (d : List (String × String)) (k v : String) :
    dget (dset d k v) k = some v := by
  simp [dget, dset, List.lookup]

/-- `get_str` through a known cache hit. -/
theorem getStr_of_hit (st : SettingsState) (k : String) (d : Option String) (v : String)
    (h : dget st.cache k = some v) :
    SettingsManager.getStr st k d = if v = "" then d else some v := by
  simp [SettingsManager.getStr, h]

/-- A concrete enabled, unpaused, quiet-hours-free bot state used to
exercise the gate on concrete inputs. -/
def demoBotState : BotState :=
  ⟨⟨[("ai_enabled", "true")], []⟩, [], [], ⟨4, 30, []⟩, none, none⟩

/-- A concrete incoming event from target user 42 on conversation 100 with
message id 1. -/
def demoEvent : Event :=
  ⟨true, true, 42, 100, 1, false, some "привет"⟩

/-- A concrete environment whose generation step succeeds. -/
def demoEnv : Env :=
  ⟨0, 720, 0, fun _ => some "ок"⟩

/-- A freshly appended user turn with a pair makes the dedup test fire. -/
theorem dbIsMessageProcessed_append (msgs rest : List Turn) (t : String) (c m : Int) :
    dbIsMessageProcessed (msgs ++ ⟨"user", t, some c, some m⟩ :: rest) c m = true := by
  simp [dbIsMessageProcessed, List.any_append]

/-- A negative dedup test means no stored user turn carries the pair. -/
theorem userPairTurns_nil_of_not_processed (msgs : List Turn) (c m : Int)
    (h : dbIsMessageProcessed msgs c m = false) :
    userPairTurns msgs c m = [] := by
  rw [userPairTurns, List.filter_eq_nil_iff]
  exact fun a ha hp => (List.any_eq_false.mp h a ha) hp

/-! ### Theorems -/

/-- C10: serializing an Owner record and reading it back restores every
persisted field — credentials, target identity, enum state, flags,
quiet-hours window, style, timestamps — with only the transient in-memory
`phone_code_hash` reset to `None`; the enum state and the boolean
`ai_enabled` survive the string / integer storage encoding. -/
theorem userdata_roundtrip (u : UserData) :
    UserData.fromDict (UserData.toDict u) = some { u with phone_code_hash := none } := by
  cases u with
  | mk uid api hash phone sess tuid tuname tname state pend ai pause qs qe qm tz ct sp ca la pch =>
    cases state <;> cases ai <;> rfl

/-- C3: the sliding-window limiter admits (recording `now`) exactly when,
after pruning entries older than the window, fewer than `max_count`
timestamps remain; a denied attempt leaves only the pruned window.  With
`max_count = 4`, `window_seconds = 30`: four admissions at `t = 0` succeed,
a fifth at `t = 0` fails without corrupting the window, an admission at
`t = 31` succeeds after the old entries expire, and `time_until_available`
then reports `0` (it is non-mutating by construction: it returns only a
value, as the source builds a fresh filtered list). -/
theorem rate_limiter_sliding_window :
    (∀ (rl : RateLimiter) (now : ℚ),
      ((rl.acquire now).1 = true ↔ (rl.pruned now).length < rl.max_count) ∧
      ((rl.pruned now).length < rl.max_count →
        (rl.acquire now).2.timestamps = rl.pruned now ++ [now]) ∧
      (rl.max_count ≤ (rl.pruned now).length →
        (rl.acquire now).2.timestamps = rl.pruned now)) ∧
    ((⟨4, 30, []⟩ : RateLimiter).acquire 0 = (true, ⟨4, 30, [0]⟩)) ∧
    ((⟨4, 30, [0]⟩ : RateLimiter).acquire 0 = (true, ⟨4, 30, [0, 0]⟩)) ∧
    ((⟨4, 30, [0, 0]⟩ : RateLimiter).acquire 0 = (true, ⟨4, 30, [0, 0, 0]⟩)) ∧
    ((⟨4, 30, [0, 0, 0]⟩ : RateLimiter).acquire 0 = (true, ⟨4, 30, [0, 0, 0, 0]⟩)) ∧
    ((⟨4, 30, [0, 0, 0, 0]⟩ : RateLimiter).acquire 0 = (false, ⟨4, 30, [0, 0, 0, 0]⟩)) ∧
    ((⟨4, 30, [0, 0, 0, 0]⟩ : RateLimiter).acquire 31 = (true, ⟨4, 30, [31]⟩)) ∧
    ((⟨4, 30, [31]⟩ : RateLimiter).timeUntilAvailable 31 = some 0) := by
  refine ⟨fun rl now => ?_, ?_, ?_, ?_, ?_, ?_, ?_, ?_⟩
  · by_cases h : rl.max_count ≤ (rl.pruned now).length <;>
      simp [RateLimiter.acquire, h, Nat.lt_iff_add_one_le, Nat.not_le.mp]
  all_goals
    norm_num [RateLimiter.acquire, RateLimiter.pruned, RateLimiter.timeUntilAvailable,
      List.dropWhile, List.filter]

/-- Witness for C3 at a concrete limiter: the pruned window of an empty
limiter has room, and the admission records the time. -/
theorem rate_limiter_sliding_window_witness :
    ((⟨4, 30, []⟩ : RateLimiter).pruned 0).length < 4 ∧
      ((⟨4, 30, []⟩ : RateLimiter).acquire 0).2.timestamps =
        (⟨4, 30, []⟩ : RateLimiter).pruned 0 ++ [0] :=
  ⟨by decide, (rate_limiter_sliding_window.1 ⟨4, 30, []⟩ 0).2.1 (by decide)⟩

/-- C7 counterexample: `set` runs `self._cache[key] = str_value` before
`self.db.set_setting(key, str_value)`, so after its first statement the
cache already holds the new value while the durable store still holds the
old one — the intermediate point the claim rules out exists. -/
theorem settings_set_cache_first_counterexample :
    SettingsManager.set ⟨[("ai_enabled", "false")], [("ai_enabled", "false")]⟩ "ai_enabled" "true" =
      SettingsManager.setStorePhase
        (SettingsManager.setCachePhase ⟨[("ai_enabled", "false")], [("ai_enabled", "false")]⟩
          "ai_enabled" "true") "ai_enabled" "true" ∧
    dget (SettingsManager.setCachePhase ⟨[("ai_enabled", "false")], [("ai_enabled", "false")]⟩
        "ai_enabled" "true").cache "ai_enabled" = some "true" ∧
    dget (SettingsManager.setCachePhase ⟨[("ai_enabled", "false")], [("ai_enabled", "false")]⟩
        "ai_enabled" "true").store "ai_enabled" = some "false" := by
  decide

/-- C7 amended: `set(key, value)` updates the in-memory cache first and the
durable store second (so between the two statements the cache is ahead of
storage); once the call completes, both cache and store hold the new value,
and the cache phase on its own never touches the store. -/
theorem settings_set_write_order (st : SettingsState) (k v : String) :
    SettingsManager.set st k v =
      SettingsManager.setStorePhase (SettingsManager.setCachePhase st k v) k v ∧
    dget (SettingsManager.set st k v).cache k = some v ∧
    dget (SettingsManager.set st k v).store k = some v ∧
    dget (SettingsManager.setCachePhase st k v).store k = dget st.store k := by
  refine ⟨rfl, ?_, ?_, rfl⟩ <;>
    simp [SettingsManager.set, SettingsManager.setStorePhase, SettingsManager.setCachePhase,
      dget, dset]

/-- C9 counterexample: `get_bool` on the malformed stored text `"banana"`
with caller default `true` returns `false`, not the caller-supplied
default — the truthiness test swallows the default for any non-empty
value. -/
theorem typed_accessor_counterexample :
    SettingsManager.getBool ⟨[("ai_enabled", "banana")], []⟩ "ai_enabled" true = false ∧
    SettingsManager.getBool ⟨[("ai_enabled", "banana")], []⟩ "ai_enabled" true ≠ true ∧
    SettingsManager.getTimezone (fun z => z == "Europe/Moscow")
      ⟨[("timezone", "Mars/Olympus")], []⟩ = "Europe/Moscow" := by
  decide

/-- C9 amended: the typed accessors are total (they never raise — they are
functions in this model, mirroring the caught `ValueError` / swallowed
`ZoneInfo` exception).  On a malformed stored value `get_int` returns the
caller-supplied default, but `get_bool` returns the truthiness test of the
value — `false` for any non-truthy non-empty text, ignoring the caller
default — and `get_timezone` falls back to the hard-coded `Europe/Moscow`
(it takes no caller default at all).  Missing or empty values do fall back
to the caller defaults. -/
theorem typed_accessor_totality (st : SettingsState) (k v : String) (dInt : Int) (dBool : Bool)
    (validZone : String → Bool) (hv : dget st.cache k = some v) (hne : v ≠ "") :
    (pyInt? v = none → SettingsManager.getInt st k dInt = dInt) ∧
    (∀ n, pyInt? v = some n → SettingsManager.getInt st k dInt = n) ∧
    SettingsManager.getBool st k dBool = pyTruthy v ∧
    (∀ tz, (SettingsManager.getStr st "timezone" (some "Europe/Moscow")).getD "Europe/Moscow" = tz →
      validZone tz = false → SettingsManager.getTimezone validZone st = "Europe/Moscow") ∧
    (∀ st2 : SettingsState, dget st2.cache k = none →
      SettingsManager.getInt st2 k dInt = dInt ∧ SettingsManager.getBool st2 k dBool = dBool) := by
  refine ⟨?_, ?_, ?_, ?_, ?_⟩
  · intro hp
    simp [SettingsManager.getInt, hv, hne, hp]
  · intro n hp
    simp [SettingsManager.getInt, hv, hne, hp]
  · simp [SettingsManager.getBool, hv, hne]
  · intro tz htz hz
    simp [SettingsManager.getTimezone, htz, hz]
  · intro st2 h2
    constructor <;> simp [SettingsManager.getInt, SettingsManager.getBool, h2]

/-- C9 witness: for the stored value `"banana"` the int accessor returns the
caller default and the bool accessor returns the truthiness test. -/
theorem typed_accessor_totality_witness :
    dget (⟨[("x", "banana")], []⟩ : SettingsState).cache "x" = some "banana" ∧
    ("banana" : String) ≠ "" ∧
    SettingsManager.getBool ⟨[("x", "banana")], []⟩ "x" true = pyTruthy "banana" :=
  ⟨by decide, by decide,
    (typed_accessor_totality ⟨[("x", "banana")], []⟩ "x" "banana" 7 true (fun _ => true)
      (by decide) (by decide)).2.2.1⟩

/-- C6 counterexample: with the manual-override setting configured to `0`
minutes and a prior pause of `999`, an outgoing-to-target event leaves
`pause_until_ts` at `999` — the single-user path only sets the pause when
the configured minutes are positive, so the claimed unconditional overwrite
with `now + override_minutes*60` fails. -/
theorem manual_override_counterexample :
    SettingsManager.setManualOverridePause
        ⟨[("manual_override_pause_minutes", "0"), ("pause_until_ts", "999")], []⟩ 100 =
      ⟨[("manual_override_pause_minutes", "0"), ("pause_until_ts", "999")], []⟩ ∧
    dget (SettingsManager.setManualOverridePause
        ⟨[("manual_override_pause_minutes", "0"), ("pause_until_ts", "999")], []⟩ 100).cache
        "pause_until_ts" = some "999" ∧
    ("999" : String) ≠ "100" := by
  decide

/-- C6 amended: when the configured override minutes are positive, the
single-user path persists `int(now) + minutes*60` into `pause_until_ts`
(cache and store), overwriting any prior value; when the configured minutes
are zero or negative, the event leaves the state untouched; and the
multi-owner path always writes `int(loop_now) + 15*60` — a hard-coded 15
minutes on the event-loop clock, ignoring any configured setting. -/
theorem manual_override_amended (st : SettingsState) (now : ℚ) (u : UserData) (loopNow : ℚ)
    (hpos : 0 < SettingsManager.getInt st "manual_override_pause_minutes" 15) :
    SettingsManager.setManualOverridePause st now =
      SettingsManager.set st "pause_until_ts"
        (toString (pyTrunc now + SettingsManager.getInt st "manual_override_pause_minutes" 15 * 60)) ∧
    dget (SettingsManager.setManualOverridePause st now).cache "pause_until_ts" =
      some (toString (pyTrunc now + SettingsManager.getInt st "manual_override_pause_minutes" 15 * 60)) ∧
    dget (SettingsManager.setManualOverridePause st now).store "pause_until_ts" =
      some (toString (pyTrunc now + SettingsManager.getInt st "manual_override_pause_minutes" 15 * 60)) ∧
    (∀ (st2 : SettingsState) (now2 : ℚ),
      SettingsManager.getInt st2 "manual_override_pause_minutes" 15 ≤ 0 →
      SettingsManager.setManualOverridePause st2 now2 = st2) ∧
    (telethonManualOverridePause u loopNow).pause_until_ts = pyTrunc loopNow + 15 * 60 := by
  refine ⟨?_, ?_, ?_, ?_, rfl⟩
  · simp [SettingsManager.setManualOverridePause, hpos]
  · simp [SettingsManager.setManualOverridePause, hpos, SettingsManager.set,
      SettingsManager.setStorePhase, SettingsManager.setCachePhase, dget, dset]
  · simp [SettingsManager.setManualOverridePause, hpos, SettingsManager.set,
      SettingsManager.setStorePhase, SettingsManager.setCachePhase, dget, dset]
  · intro st2 now2 h2
    simp [SettingsManager.setManualOverridePause, Nat.lt_iff_add_one_le, not_lt.mpr h2]

/-- C6 witness: with no override stored, the configured minutes fall back to
15 (positive) and the amended overwrite applies. -/
theorem manual_override_amended_witness :
    0 < SettingsManager.getInt ⟨[], []⟩ "manual_override_pause_minutes" 15 ∧
    (telethonManualOverridePause { user_id := 0 } 0).pause_until_ts = pyTrunc 0 + 15 * 60 :=
  ⟨by decide,
    (manual_override_amended ⟨[], []⟩ 0 { user_id := 0 } 0 (by decide)).2.2.2.2⟩

/-- C8 counterexample: provision `context_turns = "50"` at startup with no
persisted override — a read returns `"50"`; after `delete("context_turns")`
(still no persisted override) the read returns the hard-coded `"40"`, not
the provisioned `"50"`: the claimed precedence does not survive `delete`. -/
theorem layered_read_counterexample :
    SettingsManager.getStr (SettingsManager.build [("context_turns", "50")] [])
        "context_turns" none = some "50" ∧
    SettingsManager.getStr
        (SettingsManager.delete (SettingsManager.build [("context_turns", "50")] [])
          "context_turns") "context_turns" none = some "40" ∧
    some ("40" : String) ≠ some ("50" : String) := by
  decide

/-- C8 amended: at initialization the layered precedence holds — a persisted
override wins, else a non-empty provisioned default wins, else the
hard-coded fallback answers — but `delete(key)` reverts the cache to the
hard-coded default, so after a delete the provisioned startup default is no
longer returned. -/
theorem layered_read_amended (k v w dflt : String)
    (hv : v ≠ "") (hw : w ≠ "") (hd : dget SettingsManager.DEFAULTS k = some dflt) :
    SettingsManager.getStr (SettingsManager.build [(k, v)] [(k, w)]) k none = some w ∧
    SettingsManager.getStr (SettingsManager.build [(k, v)] []) k none = some v ∧
    SettingsManager.getStr (SettingsManager.build [] []) k none =
      (if dflt = "" then none else some dflt) ∧
    SettingsManager.getStr (SettingsManager.delete (SettingsManager.build [(k, v)] []) k) k none =
      (if dflt = "" then none else some dflt) := by
  have hcv : (SettingsManager.build [(k, v)] []).cache = dset SettingsManager.DEFAULTS k v := by
    simp [SettingsManager.build, List.foldl, hv]
  refine ⟨?_, ?_, ?_, ?_⟩
  · have hc : (SettingsManager.build [(k, v)] [(k, w)]).cache =
        dset (dset SettingsManager.DEFAULTS k v) k w := by
      simp [SettingsManager.build, List.foldl, hv]
    rw [getStr_of_hit _ _ _ w (by rw [hc]; exact dget_dset_self _ _ _), if_neg hw]
  · rw [getStr_of_hit _ _ _ v (by rw [hcv]; exact dget_dset_self _ _ _), if_neg hv]
  · exact getStr_of_hit _ _ _ dflt hd
  · have hdel : (SettingsManager.delete (SettingsManager.build [(k, v)] []) k).cache =
        dset (SettingsManager.build [(k, v)] []).cache k dflt := by
      simp [SettingsManager.delete, hd]
    exact getStr_of_hit _ _ _ dflt (by rw [hdel]; exact dget_dset_self _ _ _)

/-- C8 witness: for `context_turns` provisioned as `"50"`, overridden as
`"77"`, with hard-coded default `"40"`, the amended precedence holds. -/
theorem layered_read_amended_witness :
    ("50" : String) ≠ "" ∧
    SettingsManager.getStr (SettingsManager.build [("context_turns", "50")] [("context_turns", "77")])
      "context_turns" none = some "77" :=
  ⟨by decide,
    (layered_read_amended "context_turns" "50" "77" "40" (by decide) (by decide) (by decide)).1⟩

/-- C4: with a parsable configured window, the evaluator classifies `t`
inside an overnight window (`start > end`) iff `t ≥ start ∨ t < end`, and
inside a same-day window iff `start ≤ t < end`; a missing start or end, a
timezone error, or a parse failure each yield `false`.  The concrete table:
for `23:00–08:00`, 23:30 / 00:00 / 07:59 are inside and 08:00 / 12:00 /
22:59 outside; for `09:00–17:00`, 09:00 is inside and 17:00 / 08:59
outside. -/
theorem quiet_hours_classification (qs qe : String) (s e cur : Nat)
    (hs : parseTimeHM qs = some s) (he : parseTimeHM qe = some e) :
    (e < s → (isQuietHoursCore qs qe true cur = true ↔ (s ≤ cur ∨ cur < e))) ∧
    (s ≤ e → (isQuietHoursCore qs qe true cur = true ↔ (s ≤ cur ∧ cur < e))) ∧
    (∀ q c2, isQuietHoursCore "" q true c2 = false) ∧
    (∀ q c2, isQuietHoursCore q "" true c2 = false) ∧
    isQuietHoursCore qs qe false cur = false ∧
    (∀ q1 q2 c2, parseTimeHM q1 = none → isQuietHoursCore q1 q2 true c2 = false) ∧
    (∀ q1 q2 c2, parseTimeHM q2 = none → isQuietHoursCore q1 q2 true c2 = false) ∧
    (isQuietHoursCore "23:00" "08:00" true (23 * 60 + 30) = true ∧
      isQuietHoursCore "23:00" "08:00" true 0 = true ∧
      isQuietHoursCore "23:00" "08:00" true (7 * 60 + 59) = true ∧
      isQuietHoursCore "23:00" "08:00" true (8 * 60) = false ∧
      isQuietHoursCore "23:00" "08:00" true (12 * 60) = false ∧
      isQuietHoursCore "23:00" "08:00" true (22 * 60 + 59) = false ∧
      isQuietHoursCore "09:00" "17:00" true (9 * 60) = true ∧
      isQuietHoursCore "09:00" "17:00" true (17 * 60) = false ∧
      isQuietHoursCore "09:00" "17:00" true (8 * 60 + 59) = false) := by
  have hqs : ¬ qs = "" := by
    intro h
    subst h
    simp [parseTimeHM, pySplitOnChar] at hs
  have hqe : ¬ qe = "" := by
    intro h
    subst h
    simp [parseTimeHM, pySplitOnChar] at he
  refine ⟨?_, ?_, ?_, ?_, ?_, ?_, ?_, by decide⟩
  · intro hlt
    simp [isQuietHoursCore, hqs, hqe, hs, he, hlt]
  · intro hle
    simp [isQuietHoursCore, hqs, hqe, hs, he, Nat.not_lt.mpr hle]
  · intro q c2
    simp [isQuietHoursCore]
  · intro q c2
    simp [isQuietHoursCore]
  · simp [isQuietHoursCore, hqs, hqe]
  · intro q1 q2 c2 hp
    by_cases hq1 : q1 = ""
    · simp [isQuietHoursCore, hq1]
    · by_cases hq2 : q2 = ""
      · simp [isQuietHoursCore, hq2]
      · simp [isQuietHoursCore, hq1, hq2, hp]
  · intro q1 q2 c2 hp
    by_cases hq1 : q1 = ""
    · simp [isQuietHoursCore, hq1]
    · by_cases hq2 : q2 = ""
      · simp [isQuietHoursCore, hq2]
      · rcases h1 : parseTimeHM q1 with _ | s1 <;>
          simp [isQuietHoursCore, hq1, hq2, hp, h1]

/-- C4 witness: the overnight window `23:00–08:00` parses to
1380 / 480 minutes and midnight is classified inside. -/
theorem quiet_hours_classification_witness :
    parseTimeHM "23:00" = some 1380 ∧ parseTimeHM "08:00" = some 480 ∧ 480 < 1380 ∧
      (isQuietHoursCore "23:00" "08:00" true 0 = true ↔ (1380 ≤ 0 ∨ 0 < 480)) :=
  ⟨by decide, by decide, by decide,
    (quiet_hours_classification "23:00" "08:00" 1380 480 0 (by decide) (by decide)).1
      (by decide)⟩

/-- C5: in both implementations (`SettingsManager.should_respond` and
`UserData.should_respond`), a false enabled flag yields `(false,
disabled-reason)` regardless of the pause state; an enabled flag with
`pause_until_ts > now` yields `(false, pause-reason)` where the reason
carries the remaining minutes; and otherwise — in particular with
`pause_until_ts` zero or in the past — the result is `(true, "OK")`. -/
theorem should_respond_precedence (st : SettingsState) (u : UserData) (now : ℚ) (h0 : 0 ≤ now) :
    (SettingsManager.isAiEnabled st = false →
      SettingsManager.shouldRespond st now = (false, "AI отключен")) ∧
    (SettingsManager.isAiEnabled st = true →
      now < (SettingsManager.getInt st "pause_until_ts" 0 : ℚ) →
      SettingsManager.shouldRespond st now = (false, SettingsManager.pauseReason st now)) ∧
    (SettingsManager.isAiEnabled st = true →
      (SettingsManager.getInt st "pause_until_ts" 0 : ℚ) ≤ now →
      SettingsManager.shouldRespond st now = (true, "OK")) ∧
    (u.ai_enabled = false → u.shouldRespond now = (false, "AI выключен")) ∧
    (u.ai_enabled = true → now < (u.pause_until_ts : ℚ) →
      u.shouldRespond now = (false, u.pauseReason now)) ∧
    (u.ai_enabled = true → (u.pause_until_ts : ℚ) ≤ now →
      u.shouldRespond now = (true, "OK")) := by
  refine ⟨?_, ?_, ?_, ?_, ?_, ?_⟩
  · intro h
    simp [SettingsManager.shouldRespond, h]
  · intro h hp
    have hpos : 0 < SettingsManager.getInt st "pause_until_ts" 0 := by
      exact_mod_cast lt_of_le_of_lt h0 hp
    simp [SettingsManager.shouldRespond, SettingsManager.isPaused, h, not_le.mpr hpos, hp]
  · intro h hnp
    by_cases hp0 : SettingsManager.getInt st "pause_until_ts" 0 ≤ 0
    · simp [SettingsManager.shouldRespond, SettingsManager.isPaused, h, hp0]
    · simp [SettingsManager.shouldRespond, SettingsManager.isPaused, h, hp0, not_lt.mpr hnp]
  · intro h
    simp [UserData.shouldRespond, h]
  · intro h hp
    have hpos : 0 < u.pause_until_ts := by
      exact_mod_cast lt_of_le_of_lt h0 hp
    simp [UserData.shouldRespond, UserData.isPaused, h, not_le.mpr hpos, hp]
  · intro h hnp
    by_cases hp0 : u.pause_until_ts ≤ 0
    · simp [UserData.shouldRespond, UserData.isPaused, h, hp0]
    · simp [UserData.shouldRespond, UserData.isPaused, h, hp0, not_lt.mpr hnp]

/-- C5 witness: an enabled, unpaused state answers `(true, "OK")` in both
implementations. -/
theorem should_respond_precedence_witness :
    (0 : ℚ) ≤ 0 ∧
    SettingsManager.isAiEnabled ⟨[("ai_enabled", "true")], []⟩ = true ∧
    ((SettingsManager.getInt ⟨[("ai_enabled", "true")], []⟩ "pause_until_ts" 0 : ℚ) ≤ 0) ∧
    SettingsManager.shouldRespond ⟨[("ai_enabled", "true")], []⟩ 0 = (true, "OK") :=
  ⟨le_refl 0, by decide,
    by
      rw [show SettingsManager.getInt ⟨[("ai_enabled", "true")], []⟩ "pause_until_ts" 0 = 0 from
        by decide]
      norm_num,
    (should_respond_precedence ⟨[("ai_enabled", "true")], []⟩ { user_id := 0 } 0
        (le_refl 0)).2.2.1 (by decide)
      (by
        rw [show SettingsManager.getInt ⟨[("ai_enabled", "true")], []⟩ "pause_until_ts" 0 = 0 from
          by decide]
        norm_num)⟩

/-- C1: when the gate fully processes an incoming event — private chat, from
the configured target, non-empty text, pair not yet stored, responding
allowed, outside quiet hours — exactly one user-role turn with its
(conversation-id, message-id) pair is stored and at most one reply is sent
(none when generation fails); re-delivering the identical event is rejected
at the dedup check before any turn is persisted or any send dispatched,
because the pair now exists among the stored user-role turns: the second
delivery returns the state unchanged with no sends. -/
theorem dedup_idempotence (cfgTarget : Option Int) (st : BotState) (ev : Event) (env env2 : Env)
    (hpriv : ev.is_private = true) (huser : ev.sender_is_user = true) (hout : ev.out = false)
    (htarget : getTargetUserId st.settings cfgTarget = some ev.sender_id)
    (htext : ¬ pyStrip (ev.raw_text.getD "") = "")
    (hfresh : dbIsMessageProcessed st.messages ev.chat_id ev.id = false)
    (hresp : (SettingsManager.shouldRespond st.settings env.now).1 = true)
    (hquiet : wifeBotIsQuietHours st.settings env.curMinutes = false) :
    (userPairTurns (handleMessage cfgTarget st ev env).1.messages ev.chat_id ev.id).length = 1 ∧
    (handleMessage cfgTarget st ev env).2.length ≤ 1 ∧
    handleMessage cfgTarget (handleMessage cfgTarget st ev env).1 ev env2 =
      ((handleMessage cfgTarget st ev env).1, []) := by
  have h0 := userPairTurns_nil_of_not_processed st.messages ev.chat_id ev.id hfresh
  cases hg : env.gen (pyStrip (ev.raw_text.getD "")) with
  | none =>
    have h1 : handleMessage cfgTarget st ev env =
        ({ st with
            lastSenderId := some ev.sender_id
            lastActivityTs := some env.now
            limiter :=
              if (st.limiter.acquire env.now).1 then (st.limiter.acquire env.now).2
              else ((st.limiter.acquire env.now).2).waitAcquireAt env.retryAdmitTime
            messages := dbAddMessage st.messages "user" (pyStrip (ev.raw_text.getD ""))
              (some ev.chat_id) (some ev.id) }, []) := by
      simp [handleMessage, hpriv, huser, hout, htarget, htext, hfresh, hresp, hquiet, hg]
    rw [h1]
    refine ⟨?_, ?_, ?_⟩
    · simp only [userPairTurns] at h0
      simp [userPairTurns, dbAddMessage, List.filter_append, h0]
    · simp
    · simp [handleMessage, hpriv, huser, hout, htarget, htext, dbAddMessage,
        dbIsMessageProcessed_append]
  | some reply =>
    have h1 : handleMessage cfgTarget st ev env =
        ({ st with
            lastSenderId := some ev.sender_id
            lastActivityTs := some env.now
            limiter :=
              if (st.limiter.acquire env.now).1 then (st.limiter.acquire env.now).2
              else ((st.limiter.acquire env.now).2).waitAcquireAt env.retryAdmitTime
            messages := dbAddMessage
              (dbAddMessage st.messages "user" (pyStrip (ev.raw_text.getD ""))
                (some ev.chat_id) (some ev.id))
              "assistant" reply (some ev.chat_id) none },
          [(ev.chat_id, reply)]) := by
      simp [handleMessage, hpriv, huser, hout, htarget, htext, hfresh, hresp, hquiet, hg]
    rw [h1]
    refine ⟨?_, ?_, ?_⟩
    · simp only [userPairTurns] at h0
      simp [userPairTurns, dbAddMessage, List.filter_append, h0]
    · simp
    · have hdup : dbIsMessageProcessed
          (st.messages ++
            [⟨"user", pyStrip (ev.raw_text.getD ""), some ev.chat_id, some ev.id⟩,
             ⟨"assistant", reply, some ev.chat_id, none⟩]) ev.chat_id ev.id = true := by
        simpa using dbIsMessageProcessed_append st.messages
          [⟨"assistant", reply, some ev.chat_id, none⟩] (pyStrip (ev.raw_text.getD ""))
          ev.chat_id ev.id
      simp [handleMessage, hpriv, huser, hout, htarget, htext, dbAddMessage, hdup]

/-- C1 witness: a concrete first delivery stores exactly one user turn with
the pair (100, 1) and the identical second delivery is a no-op. -/
theorem dedup_idempotence_witness :
    (demoEvent.is_private = true ∧ demoEvent.sender_is_user = true ∧ demoEvent.out = false ∧
      getTargetUserId demoBotState.settings (some 42) = some demoEvent.sender_id ∧
      ¬ pyStrip (demoEvent.raw_text.getD "") = "" ∧
      dbIsMessageProcessed demoBotState.messages demoEvent.chat_id demoEvent.id = false ∧
      (SettingsManager.shouldRespond demoBotState.settings demoEnv.now).1 = true ∧
      wifeBotIsQuietHours demoBotState.settings demoEnv.curMinutes = false) ∧
    (userPairTurns (handleMessage (some 42) demoBotState demoEvent demoEnv).1.messages
      demoEvent.chat_id demoEvent.id).length = 1 ∧
    handleMessage (some 42) (handleMessage (some 42) demoBotState demoEvent demoEnv).1
      demoEvent demoEnv = ((handleMessage (some 42) demoBotState demoEvent demoEnv).1, []) :=
  ⟨⟨rfl, rfl, rfl, by decide, by decide, by decide, by decide, by decide⟩,
    (dedup_idempotence (some 42) demoBotState demoEvent demoEnv demoEnv rfl rfl rfl
      (by decide) (by decide) (by decide) (by decide) (by decide)).1,
    (dedup_idempotence (some 42) demoBotState demoEvent demoEnv demoEnv rfl rfl rfl
      (by decide) (by decide) (by decide) (by decide) (by decide)).2.2⟩

/-- C2: from pending items A, B, C enqueued in that order, a flush whose
generation step succeeds persists three user turns in arrival order A, B, C
followed by exactly one assistant turn, sends one combined reply, and
empties the pending set; a flush whose generation step raises leaves all
three pending items present, untouched — the pending set is cleared only
after the reply has been generated and sent.  Both the single-user
(`process_pending_queue`) and the multi-owner (`_process_queue`, with its
client registered) flush paths satisfy this. -/
theorem pending_batch_ordering_and_atomicity (st : BotState) (env : Env) (a b c : PendingItem)
    (u : UserData) (msgs : List Turn)
    (hpend : st.pending = [a, b, c])
    (hresp : (SettingsManager.shouldRespond st.settings env.now).1 = true)
    (hur : (u.shouldRespond env.now).1 = true) :
    (∀ reply, env.gen (formatPendingMessages [a, b, c]) = some reply →
      (processPendingQueue st env).1.messages =
        st.messages ++
          [⟨"user", a.text, some a.chat_id, some a.message_id⟩,
           ⟨"user", b.text, some b.chat_id, some b.message_id⟩,
           ⟨"user", c.text, some c.chat_id, some c.message_id⟩,
           ⟨"assistant", reply, some a.chat_id, none⟩] ∧
      (processPendingQueue st env).1.pending = [] ∧
      (processPendingQueue st env).2 = [(a.chat_id, reply)]) ∧
    (env.gen (formatPendingMessages [a, b, c]) = none →
      (processPendingQueue st env).1.pending = [a, b, c] ∧
      (processPendingQueue st env).2 = []) ∧
    (∀ reply (gen2 : String → Option String), gen2 (telethonCombine [a, b, c]) = some reply →
      telethonProcessQueue u msgs [a, b, c] true env.now gen2 =
        (msgs ++
          [⟨"user", a.text, some a.chat_id, some a.message_id⟩,
           ⟨"user", b.text, some b.chat_id, some b.message_id⟩,
           ⟨"user", c.text, some c.chat_id, some c.message_id⟩,
           ⟨"assistant", reply, some a.chat_id, none⟩], [], [(a.chat_id, reply)])) ∧
    (∀ gen2 : String → Option String, gen2 (telethonCombine [a, b, c]) = none →
      (telethonProcessQueue u msgs [a, b, c] true env.now gen2).2.1 = [a, b, c] ∧
      (telethonProcessQueue u msgs [a, b, c] true env.now gen2).2.2 = []) := by
  refine ⟨?_, ?_, ?_, ?_⟩
  · intro reply hg
    simp [processPendingQueue, hpend, hresp, hg, dbAddMessage]
  · intro hg
    simp [processPendingQueue, hpend, hresp, hg]
  · intro reply gen2 hg
    simp [telethonProcessQueue, hur, hg, dbAddMessage]
  · intro gen2 hg
    simp [telethonProcessQueue, hur, hg]

/-- C2 witness: three concrete pending items flushed with a succeeding
generation step yield the ordered turns and an empty pending set. -/
theorem pending_batch_witness :
    ((⟨⟨[("ai_enabled", "true")], []⟩, [], [⟨100, 1, "a"⟩, ⟨100, 2, "b"⟩, ⟨100, 3, "c"⟩],
        ⟨4, 30, []⟩, none, none⟩ : BotState).pending =
      [⟨100, 1, "a"⟩, ⟨100, 2, "b"⟩, ⟨100, 3, "c"⟩]) ∧
    (processPendingQueue
        ⟨⟨[("ai_enabled", "true")], []⟩, [], [⟨100, 1, "a"⟩, ⟨100, 2, "b"⟩, ⟨100, 3, "c"⟩],
          ⟨4, 30, []⟩, none, none⟩ demoEnv).1.pending = [] :=
  ⟨rfl,
    ((pending_batch_ordering_and_atomicity
        ⟨⟨[("ai_enabled", "true")], []⟩, [], [⟨100, 1, "a"⟩, ⟨100, 2, "b"⟩, ⟨100, 3, "c"⟩],
          ⟨4, 30, []⟩, none, none⟩ demoEnv ⟨100, 1, "a"⟩ ⟨100, 2, "b"⟩ ⟨100, 3, "c"⟩
        { user_id := 0, ai_enabled := true } [] rfl (by decide) (by decide)).1 "ок"
      rfl).2.1⟩

end WifeSim
